import Mathlib

/-!
Shallow embedding of the MedivalOS firmware (ESP32 Intervals.icu form
display) and proofs about its form-history refresh, WiFi join retry
loop, daily scheduler, and web configuration handlers.

Sources embedded:
- `api.ino` : `fetchWellnessJson`, `refreshFormHistory` (form = CTL − ATL,
  rounding, 30-entry history cap);
- `wifi.ino` : `connectToWiFi` (radio reset, 3-attempt retry loop,
  3 s backoff);
- `medivalos.ino` : globals, `setup` connectivity decision,
  `maybeRunScheduledRefresh`;
- `web.ino` : `handleSaveAPI`, `handleSaveSchedule`, `handleAPIForm`.

Wire-format floating point values (the `ctl`/`atl` fields of the JSON
response) are modelled as exact rationals given by an integer numerator
and positive integer denominator (`WireVal`), so that every definition
evaluates inside the kernel.  C's `round` (round half away from zero)
is `roundC`, proved below to agree with `⌊q + 1/2⌋` / `⌈q - 1/2⌉`.
-/

/-- A wire-format numeric value: the exact rational `num / den`.
The JSON decoder of the firmware yields finite decimal values, all of
which have this form with `0 < den`. -/
structure WireVal where
  num : ℤ
  den : ℤ
deriving DecidableEq, Repr

/-- C library `round` applied to the exact value `v.num / v.den`:
round to nearest integer, halves away from zero.  Requires `0 < v.den`
to be meaningful.  For `0 ≤ num` this is `⌊v + 1/2⌋`, computed as the
floor division `(2*num + den) / (2*den)`; negative values mirror. -/
def roundC (v : WireVal) : ℤ :=
  if 0 ≤ v.num then Int.fdiv (2 * v.num + v.den) (2 * v.den)
  else -(Int.fdiv (2 * (-v.num) + v.den) (2 * v.den))

/-- The rational value a `WireVal` denotes. -/
def WireVal.toRat (v : WireVal) : ℚ := (v.num : ℚ) / (v.den : ℚ)

/-- Exact subtraction of two wire values (used only to express what the
code does *not* compute: rounding after the subtraction). -/
def WireVal.sub (x y : WireVal) : WireVal :=
  ⟨x.num * y.den - y.num * x.den, x.den * y.den⟩

theorem roundC_nonneg_eq_floor (v : WireVal) (hd : 0 < v.den) (hn : 0 ≤ v.num) :
    roundC v = ⌊v.toRat + 1 / 2⌋ := by
  rw [roundC, if_pos hn, WireVal.toRat]
  rw [Int.fdiv_eq_ediv _ (by omega)]
  have hden : ((2 * v.den).toNat : ℤ) = 2 * v.den := by omega
  have hq : (v.num : ℚ) / (v.den : ℚ) + 1 / 2
      = ((2 * v.num + v.den : ℤ) : ℚ) / (((2 * v.den).toNat : ℕ) : ℚ) := by
    have : (((2 * v.den).toNat : ℕ) : ℚ) = ((2 * v.den : ℤ) : ℚ) := by
      exact_mod_cast congrArg (Int.cast : ℤ → ℚ) hden
    rw [this]
    have hne : (v.den : ℚ) ≠ 0 := by
      exact_mod_cast (by omega : (v.den : ℤ) ≠ 0)
    push_cast
    field_simp
    ring
  rw [hq, Rat.floor_intCast_div_natCast, hden]

theorem roundC_neg_eq_ceil (v : WireVal) (hd : 0 < v.den) (hn : v.num < 0) :
    roundC v = ⌈v.toRat - 1 / 2⌉ := by
  have hmirror := roundC_nonneg_eq_floor ⟨-v.num, v.den⟩ hd
    (by show (0:ℤ) ≤ -v.num; omega)
  have htr : WireVal.toRat ⟨-v.num, v.den⟩ = -v.toRat := by
    simp [WireVal.toRat, neg_div]
  rw [roundC, if_neg (by omega)]
  have hval : roundC ⟨-v.num, v.den⟩
      = Int.fdiv (2 * (-v.num) + v.den) (2 * v.den) := by
    rw [roundC, if_pos (show (0:ℤ) ≤ WireVal.num ⟨-v.num, v.den⟩ by
      show (0:ℤ) ≤ -v.num; omega)]
  rw [← hval, hmirror, htr]
  have hflip : -v.toRat + 1 / 2 = -(v.toRat - 1 / 2) := by ring
  rw [hflip, Int.floor_neg, neg_neg]

/-- A parsed wellness record as the ArduinoJson filter delivers it:
the fields `id`, `ctl`, `atl`, each possibly missing. -/
structure WellnessEntry where
  id : Option String
  ctl : Option WireVal
  atl : Option WireVal
deriving DecidableEq, Repr

/-- One element of `formHistory` (struct `FormEntry` of `medivalos.ino`). -/
structure FormEntry where
  date : String
  ctl : ℤ
  atl : ℤ
  form : ℤ
deriving DecidableEq, Repr

/-- The record-construction step of `refreshFormHistory` (api.ino
lines 177-189): missing fields default (`entry["id"] | "unknown"`,
`entry["ctl"] | 0.0`), each float is rounded to an integer first, and
`form` is the difference of the two rounded integers. -/
def mkFormEntry (e : WellnessEntry) : FormEntry :=
  let ctl := roundC (e.ctl.getD ⟨0, 1⟩)
  let atl := roundC (e.atl.getD ⟨0, 1⟩)
  { date := e.id.getD "unknown", ctl := ctl, atl := atl, form := ctl - atl }

/-- `FORM_HISTORY_DAYS` of `medivalos.ino`. -/
def FORM_HISTORY_DAYS : ℕ := 30

/-- The mutable form-data globals of `medivalos.ino`: the bounded
`formHistory` array together with its live count (modelled as the list
of the first `formHistoryCount` entries, oldest first) and the
current-snapshot globals `currentCTL`, `currentATL`, `currentForm`,
`lastUpdateTime`. -/
structure FormState where
  formHistory : List FormEntry
  currentCTL : ℤ
  currentATL : ℤ
  currentForm : ℤ
  lastUpdateTime : String
deriving DecidableEq, Repr

/-- What the network layer delivers for one wellness GET, at the level
the firmware inspects it: a non-200 HTTP status, a body that fails
JSON deserialization, or a successfully parsed JSON array of records. -/
inductive NetResponse where
  | httpError
  | parseError
  | parsed (arr : List WellnessEntry)
deriving DecidableEq, Repr

/-- `fetchWellnessJson` of `api.ino` (lines 18-77).  Returns
`(requestIssued, result)`: if the API key is not configured the
function returns `false` before any network activity; otherwise one
HTTP request happens and a non-200 status or a deserialization error
yield failure, a parsed array yields the records. -/
def fetchWellnessJson (apiConfigured : Bool) (net : NetResponse) :
    Bool × Option (List WellnessEntry) :=
  if !apiConfigured then (false, none)
  else
    match net with
    | NetResponse.httpError => (true, none)
    | NetResponse.parseError => (true, none)
    | NetResponse.parsed arr => (true, some arr)

/-- `refreshFormHistory` of `api.ino` (lines 161-209).  On fetch
failure the state is untouched.  On a parsed array the code first sets
`formHistoryCount = 0`, then copies records in response order while
`formHistoryCount < FORM_HISTORY_DAYS` (i.e. keeps the first 30); if
no record was stored it reports failure (with the count already
zeroed), otherwise it copies the last stored record into the
current-snapshot globals and reports success. -/
def refreshFormHistory (apiConfigured : Bool) (net : NetResponse) (s : FormState) :
    Bool × FormState :=
  match (fetchWellnessJson apiConfigured net).2 with
  | none => (false, s)
  | some arr =>
      let hist := (arr.take FORM_HISTORY_DAYS).map mkFormEntry
      match hist.getLast? with
      | none => (false, { s with formHistory := hist })
      | some latest =>
          (true, { formHistory := hist, currentCTL := latest.ctl,
                   currentATL := latest.atl, currentForm := latest.form,
                   lastUpdateTime := latest.date })

/-- Result of one scheduler tick: whether the refresh body ran, the
`lastDailyFetchDate` global afterwards, and the form state afterwards. -/
structure SchedulerTick where
  ran : Bool
  lastDailyFetchDate : String
  state : FormState
deriving DecidableEq, Repr

/-- `maybeRunScheduledRefresh` of `medivalos.ino` (lines 311-339),
with the civil time already read: bail out if a fetch already
succeeded today; otherwise, when the wall clock is at or past the
configured time (`tm_hour > scheduleHour`, or equal hour and
`tm_min >= scheduleMinute`), run `refreshFormHistory` and record
today's date only if it succeeded. -/
def maybeRunScheduledRefresh (today : String) (hour minute : ℤ)
    (scheduleHour scheduleMinute : ℤ) (apiConfigured : Bool) (net : NetResponse)
    (lastDailyFetchDate : String) (s : FormState) : SchedulerTick :=
  if lastDailyFetchDate = today then
    { ran := false, lastDailyFetchDate := lastDailyFetchDate, state := s }
  else if scheduleHour < hour ∨ (hour = scheduleHour ∧ scheduleMinute ≤ minute) then
    let r := refreshFormHistory apiConfigured net s
    { ran := true,
      lastDailyFetchDate := if r.1 then today else lastDailyFetchDate,
      state := r.2 }
  else
    { ran := false, lastDailyFetchDate := lastDailyFetchDate, state := s }

/-- Radio side effects of `connectToWiFi` (`wifi.ino`), in order. -/
inductive RadioEvent where
  | powerOff
  | powerOnSta
  | disconnect
  | beginAttempt
  | backoff3s
deriving DecidableEq, Repr

/-- The terminal condition of one association attempt: the poll loop
leaves on `WL_CONNECTED`, breaks early on `WL_NO_SSID_AVAIL` or
`WL_CONNECT_FAILED` (auth failure), or exhausts the 30 s timeout. -/
inductive AttemptOutcome where
  | connected
  | ssidNotFound
  | authFailed
  | timeout
deriving DecidableEq, Repr

/-- `MAX_RETRIES` of `connectToWiFi`. -/
def MAX_RETRIES : ℕ := 3

/-- The retry loop of `connectToWiFi` (`wifi.ino` lines 120-174) over
the remaining attempts' outcomes.  Each attempt issues
`WiFi.disconnect(true)` then `WiFi.begin`; a connected outcome returns
success at once; a failed attempt that is not the last disconnects and
waits the fixed 3 s backoff before the next one.  Returns
`(connected, attemptsMade, radio event trace)`. -/
def connectLoop : List AttemptOutcome → Bool × ℕ × List RadioEvent
  | [] => (false, 0, [])
  | o :: rest =>
      if o = AttemptOutcome.connected then
        (true, 1, [RadioEvent.disconnect, RadioEvent.beginAttempt])
      else
        match rest with
        | [] => (false, 1, [RadioEvent.disconnect, RadioEvent.beginAttempt])
        | r :: rs =>
            let next := connectLoop (r :: rs)
            (next.1, next.2.1 + 1,
              RadioEvent.disconnect :: RadioEvent.beginAttempt ::
              RadioEvent.disconnect :: RadioEvent.backoff3s :: next.2.2)

/-- `connectToWiFi` of `wifi.ino` (lines 97-179): immediate failure
with no radio activity when no SSID is configured; otherwise one full
radio reset (`WIFI_OFF`, pause, `WIFI_STA`) before the retry loop,
then up to `MAX_RETRIES` association attempts whose outcomes the
environment `env` dictates. -/
def connectToWiFi (wifiSSID : String) (env : ℕ → AttemptOutcome) :
    Bool × ℕ × List RadioEvent :=
  if wifiSSID.length = 0 then (false, 0, [])
  else
    let r := connectLoop ((List.range MAX_RETRIES).map env)
    (r.1, r.2.1, RadioEvent.powerOff :: RadioEvent.powerOnSta :: r.2.2)

/-- Boot-time connectivity outcome (`setup` of `medivalos.ino`). -/
inductive ConnectivityState where
  | connected
  | apFallback
deriving DecidableEq, Repr

/-- The connectivity decision of `setup` (`medivalos.ino` lines
217-254): `wifiConfigured` is SSID non-emptiness (from
`loadCredentials`); short-circuit means `connectToWiFi` is not even
called when unconfigured, and any failure starts AP mode
(`startAPMode` sets `isAPMode = true`).  Returns
`(state, join attempts made, isAPMode)`. -/
def establishConnectivity (wifiSSID : String) (env : ℕ → AttemptOutcome) :
    ConnectivityState × ℕ × Bool :=
  if wifiSSID.length = 0 then (ConnectivityState.apFallback, 0, true)
  else
    let r := connectToWiFi wifiSSID env
    if r.1 then (ConnectivityState.connected, r.2.1, false)
    else (ConnectivityState.apFallback, r.2.1, true)

/-- An HTTP response sent by the local web server. -/
structure HttpResponse where
  code : ℕ
  body : String
deriving DecidableEq, Repr

/-- Body sent by `handleAPIForm` when the API key is missing. -/
def apiFormNotConfiguredBody : String :=
  "\x7b\"success\":false,\"error\":\"API key not configured\"\x7d"

/-- Body sent by `handleAPIForm` when the refresh failed. -/
def apiFormFailedBody : String :=
  "\x7b\"success\":false,\"error\":\"Failed to fetch data\"\x7d"

/-- Body sent by `handleAPIForm` on success. -/
def apiFormSuccessBody : String :=
  "\x7b\"success\":true,\"message\":\"Current form fetched. See Serial output.\"\x7d"

/-- `handleAPIForm` of `web.ino` (lines 831-846): a missing API key is
answered with a 400 `success:false` body before any refresh is
attempted; otherwise `refreshFormHistory` runs and its outcome selects
the 200 or 500 response.  Returns
`(response, refreshAttempted, state afterwards)`. -/
def handleAPIForm (apiConfigured : Bool) (net : NetResponse) (s : FormState) :
    HttpResponse × Bool × FormState :=
  if !apiConfigured then (⟨400, apiFormNotConfiguredBody⟩, false, s)
  else
    let r := refreshFormHistory apiConfigured net s
    if r.1 then (⟨200, apiFormSuccessBody⟩, true, r.2)
    else (⟨500, apiFormFailedBody⟩, true, r.2)

/-- The remote-credential globals of `medivalos.ino`. -/
structure ApiConfig where
  apiKey : String
  athleteId : String
  apiConfigured : Bool
deriving DecidableEq, Repr

/-- `handleSaveAPI` of `web.ino` (lines 752-771): the submitted key
overwrites the stored one only when it is neither the `"********"`
placeholder nor empty; an empty athlete id defaults to `"0"`; finally
`apiConfigured` is recomputed from the (possibly unchanged) key. -/
def handleSaveAPI (key athId : String) (st : ApiConfig) : ApiConfig :=
  let apiKey1 := if key ≠ "********" ∧ key.length ≠ 0 then key else st.apiKey
  let athId1 := if athId.length = 0 then "0" else athId
  { apiKey := apiKey1, athleteId := athId1,
    apiConfigured := apiKey1.length ≠ 0 }

/-- The schedule globals of `medivalos.ino`. -/
structure ScheduleState where
  scheduleHour : ℤ
  scheduleMinute : ℤ
  gmtOffsetHours : ℤ
deriving DecidableEq, Repr

/-- `handleSaveSchedule` of `web.ino` (lines 774-805), after
`String.toInt` parsing of the form fields: clamp the 12-hour value to
1..12, the minute to 0..59, the timezone offset to -12..14; convert
to 24-hour with `hourInput % 12` plus 12 when the period is `"PM"`. -/
def handleSaveSchedule (hourInput minuteInput tzOffset : ℤ) (period : String) :
    ScheduleState :=
  let h1 := if hourInput < 1 then 1 else hourInput
  let h2 := if h1 > 12 then 12 else h1
  let m1 := if minuteInput < 0 then 0 else minuteInput
  let m2 := if m1 > 59 then 59 else m1
  let t1 := if tzOffset < -12 then -12 else tzOffset
  let t2 := if t1 > 14 then 14 else t1
  let hour24 := h2 % 12 + (if period = "PM" then 12 else 0)
  { scheduleHour := hour24, scheduleMinute := m2, gmtOffsetHours := t2 }

/-- A distinguishable wellness record: date `"d<i>"`, ctl `i`, atl `0`. -/
def sampleEntry (i : ℕ) : WellnessEntry :=
  { id := some (String.append "d" (toString i)),
    ctl := some ⟨(i : ℤ), 1⟩, atl := some ⟨0, 1⟩ }

/-- A 45-record parsed response (more records than the 30-entry cap). -/
def sample45 : List WellnessEntry := (List.range 45).map sampleEntry

/-- The boot-time form state (empty history, `lastUpdateTime = "Never"`). -/
def initialFormState : FormState :=
  { formHistory := [], currentCTL := 0, currentATL := 0, currentForm := 0,
    lastUpdateTime := "Never" }

/-- A state that already holds one good day of data, as after a
successful refresh. -/
def populatedFormState : FormState :=
  { formHistory := [⟨"2025-01-01", 42, 39, 3⟩],
    currentCTL := 42, currentATL := 39, currentForm := 3,
    lastUpdateTime := "2025-01-01" }

/-- Helper: `refreshFormHistory` on a successfully parsed array,
unfolded one step. -/
theorem refreshFormHistory_parsed_eq (arr : List WellnessEntry) (s : FormState) :
    refreshFormHistory true (NetResponse.parsed arr) s =
      match ((arr.take FORM_HISTORY_DAYS).map mkFormEntry).getLast? with
      | none =>
          (false, { s with formHistory := (arr.take FORM_HISTORY_DAYS).map mkFormEntry })
      | some latest =>
          (true, { formHistory := (arr.take FORM_HISTORY_DAYS).map mkFormEntry,
                   currentCTL := latest.ctl, currentATL := latest.atl,
                   currentForm := latest.form,
                   lastUpdateTime := latest.date }) := rfl

/-- C6: with an empty SSID the connectivity routine returns the
access-point fallback immediately, zero join attempts are made (the
join routine itself reports failure with no attempt and no radio
activity), and AP mode is started (`isAPMode = true`). -/
theorem C6_empty_ssid_ap_fallback :
    ∀ env : ℕ → AttemptOutcome,
      establishConnectivity "" env = (ConnectivityState.apFallback, 0, true) ∧
      connectToWiFi "" env = (false, 0, []) := by
  intro env
  exact ⟨rfl, rfl⟩

/-- C7: for every record whose `ctl`/`atl` fields are present, the
stored `form` equals `round(ctl) − round(atl)` (each value rounded to
nearest first, then subtracted); and at the spec's own example values
42.4 and 38.6 this differs from `round(ctl − atl)` (3 versus 4), so
the code's order of operations is observable. -/
theorem C7_round_before_subtract :
    (∀ (d : String) (c a : WireVal),
        (mkFormEntry ⟨some d, some c, some a⟩).form = roundC c - roundC a) ∧
    (mkFormEntry ⟨some "2025-01-01", some ⟨424, 10⟩, some ⟨386, 10⟩⟩).form = 3 ∧
    roundC (WireVal.sub ⟨424, 10⟩ ⟨386, 10⟩) = 4 := by
  refine ⟨fun d c a => rfl, by decide, by decide⟩

/-- C8: with no API key configured, `fetchWellnessJson` fails with no
network request issued (first component `false`), and the `/api/form`
handler answers 400 with a `success:false` error body, without
attempting a refresh (second component `false`) and without touching
the form state. -/
theorem C8_not_configured_fail_fast :
    ∀ (net : NetResponse) (s : FormState),
      fetchWellnessJson false net = (false, none) ∧
      handleAPIForm false net s =
        (⟨400, apiFormNotConfiguredBody⟩, false, s) := by
  intro net s
  exact ⟨rfl, rfl⟩

/-- C9: a POST to `/saveapi` keeps the stored API key whenever the
submitted key is the `"********"` placeholder or empty, and replaces
it exactly when the submitted key is neither; the stored athlete id
becomes the submitted one, defaulting to `"0"` when empty. -/
theorem C9_placeholder_preserves_key :
    ∀ (key athId : String) (st : ApiConfig),
      (handleSaveAPI key athId st).apiKey
        = (if key = "********" ∨ key.length = 0 then st.apiKey else key) ∧
      (handleSaveAPI key athId st).athleteId
        = (if athId.length = 0 then "0" else athId) := by
  intro key athId st
  constructor
  · simp only [handleSaveAPI]
    split_ifs <;> tauto
  · rfl

/-- C10: whatever integers and period string `/saveschedule` receives,
the stored schedule hour lands in 0..23, the minute in 0..59 and the
timezone offset in -12..14; the 12-hour input 12 maps to hour 0 under
`"AM"` and to hour 12 under `"PM"`. -/
theorem C10_schedule_invariants :
    ∀ (hourInput minuteInput tzOffset : ℤ) (period : String),
      (0 ≤ (handleSaveSchedule hourInput minuteInput tzOffset period).scheduleHour ∧
        (handleSaveSchedule hourInput minuteInput tzOffset period).scheduleHour ≤ 23) ∧
      (0 ≤ (handleSaveSchedule hourInput minuteInput tzOffset period).scheduleMinute ∧
        (handleSaveSchedule hourInput minuteInput tzOffset period).scheduleMinute ≤ 59) ∧
      (-12 ≤ (handleSaveSchedule hourInput minuteInput tzOffset period).gmtOffsetHours ∧
        (handleSaveSchedule hourInput minuteInput tzOffset period).gmtOffsetHours ≤ 14) ∧
      (handleSaveSchedule 12 minuteInput tzOffset "AM").scheduleHour = 0 ∧
      (handleSaveSchedule 12 minuteInput tzOffset "PM").scheduleHour = 12 := by
  intro h m tz p
  refine ⟨?_, ?_, ?_, ?_, ?_⟩ <;>
    simp only [handleSaveSchedule] <;>
    split_ifs <;>
    simp_all <;>
    omega

/-- C4: a scheduler tick initiates a refresh exactly when the
last-fetch date differs from today and the current (hour, minute) is
lexicographically at or past the configured (scheduleHour,
scheduleMinute). -/
theorem C4_due_iff :
    ∀ (today lastFetch : String) (hour minute scheduleHour scheduleMinute : ℤ)
      (apiConfigured : Bool) (net : NetResponse) (s : FormState),
      (maybeRunScheduledRefresh today hour minute scheduleHour scheduleMinute
          apiConfigured net lastFetch s).ran = true
        ↔ (lastFetch ≠ today ∧
            Prod.Lex (· < ·) (· ≤ ·) (scheduleHour, scheduleMinute) (hour, minute)) := by
  intro today lastFetch h m sh sm apiC net s
  rw [Prod.lex_def]
  simp only [maybeRunScheduledRefresh]
  by_cases h1 : lastFetch = today
  · simp [h1]
  · by_cases h2 : sh < h ∨ (h = sh ∧ sm ≤ m)
    · simp only [if_neg h1, if_pos h2]
      simp only [true_iff, iff_true]
      exact ⟨h1, by omega⟩
    · simp only [if_neg h1, if_neg h2]
      constructor
      · intro hcon
        simp at hcon
      · rintro ⟨-, hlex⟩
        exact absurd (show sh < h ∨ (h = sh ∧ sm ≤ m) by omega) h2

/-- C5: after a tick, the last-fetch marker equals today exactly when
the refresh body ran and succeeded; a failed or skipped refresh leaves
the marker unchanged.  Consequently a tick whose marker already equals
today never runs the refresh again (at most one successful scheduled
refresh per calendar day). -/
theorem C5_marker_update :
    ∀ (today : String) (hour minute scheduleHour scheduleMinute : ℤ)
      (apiConfigured : Bool) (net : NetResponse) (lastFetch : String) (s : FormState),
      ((maybeRunScheduledRefresh today hour minute scheduleHour scheduleMinute
          apiConfigured net lastFetch s).lastDailyFetchDate
        = if (maybeRunScheduledRefresh today hour minute scheduleHour scheduleMinute
                apiConfigured net lastFetch s).ran
              && (refreshFormHistory apiConfigured net s).1
          then today else lastFetch) ∧
      (maybeRunScheduledRefresh today hour minute scheduleHour scheduleMinute
          apiConfigured net today s).ran = false := by
  intro today h m sh sm apiC net lastFetch s
  constructor
  · simp only [maybeRunScheduledRefresh]
    by_cases h1 : lastFetch = today
    · simp [h1]
    · by_cases h2 : sh < h ∨ (h = sh ∧ sm ≤ m)
      · simp only [if_neg h1, if_pos h2]
        cases hr : (refreshFormHistory apiC net s).1 <;> simp [hr]
      · simp [if_neg h1, if_neg h2]
  · simp [maybeRunScheduledRefresh]

/-- C1 counterexample: a successful refresh whose parsed response has
45 records does NOT retain the chronologically most recent 30 (the
last 30 of the oldest-first response); the retained history differs
from `drop (45-30)` of the input. -/
theorem C1_counterexample :
    (refreshFormHistory true (NetResponse.parsed sample45) initialFormState).1 = true ∧
    (refreshFormHistory true (NetResponse.parsed sample45) initialFormState).2.formHistory
      ≠ (sample45.drop (sample45.length - 30)).map mkFormEntry := by
  decide

/-- C1 amended: a successful refresh whose parsed response has more
than 30 records retains exactly 30 records, namely the FIRST 30 of
the response in response order (the chronologically oldest 30 when the
response is ordered oldest-first; the newest records are the ones
discarded). -/
theorem C1_retains_first_thirty (arr : List WellnessEntry) (h : 30 < arr.length)
    (s : FormState) :
    (refreshFormHistory true (NetResponse.parsed arr) s).1 = true ∧
    (refreshFormHistory true (NetResponse.parsed arr) s).2.formHistory
      = (arr.take 30).map mkFormEntry ∧
    (refreshFormHistory true (NetResponse.parsed arr) s).2.formHistory.length = 30 := by
  have hlen : ((arr.take FORM_HISTORY_DAYS).map mkFormEntry).length = 30 := by
    simp only [List.length_map, List.length_take, FORM_HISTORY_DAYS]
    omega
  have hne : (arr.take FORM_HISTORY_DAYS).map mkFormEntry ≠ [] := by
    intro hcon
    rw [hcon] at hlen
    simp at hlen
  rcases hsome : ((arr.take FORM_HISTORY_DAYS).map mkFormEntry).getLast? with _ | latest
  · exact absurd (List.getLast?_eq_none_iff.mp hsome) hne
  · rw [refreshFormHistory_parsed_eq, hsome]
    exact ⟨rfl, rfl, hlen⟩

theorem C1_retains_first_thirty_witness :
    (refreshFormHistory true (NetResponse.parsed sample45) initialFormState).1 = true ∧
    (refreshFormHistory true (NetResponse.parsed sample45) initialFormState).2.formHistory
      = (sample45.take 30).map mkFormEntry ∧
    (refreshFormHistory true
        (NetResponse.parsed sample45) initialFormState).2.formHistory.length = 30 :=
  C1_retains_first_thirty sample45 (by decide) initialFormState

/-- C2 counterexample: a refresh whose response parses to an empty
array reports failure but does NOT leave the previous FormHistory
unchanged — the retained history of a previously populated state is
erased (the live record count is zeroed before the emptiness check). -/
theorem C2_counterexample :
    (refreshFormHistory true (NetResponse.parsed []) populatedFormState).1 = false ∧
    (refreshFormHistory true (NetResponse.parsed []) populatedFormState).2.formHistory
      ≠ populatedFormState.formHistory := by
  decide

/-- C2 amended: a refresh that fails to fetch (non-200 status or
malformed JSON) reports failure and leaves the whole form state
unchanged; a refresh whose response parses to an empty array reports
failure and leaves the current/latest snapshot fields unchanged but
clears the retained history to empty. -/
theorem C2_failure_paths :
    ∀ (s : FormState) (apiConfigured : Bool),
      refreshFormHistory apiConfigured NetResponse.parseError s = (false, s) ∧
      refreshFormHistory apiConfigured NetResponse.httpError s = (false, s) ∧
      refreshFormHistory true (NetResponse.parsed []) s
        = (false, { s with formHistory := [] }) := by
  intro s apiC
  refine ⟨?_, ?_, rfl⟩ <;> cases apiC <;> rfl

/-- C3 counterexample: with a configured SSID and every attempt ending
in auth failure, exactly 3 attempts occur, but the radio trace
contains exactly ONE full power-off reset (before the retry loop) —
not one per attempt, so attempts 2 and 3 are not preceded by a full
radio reset (after the first association no power-off occurs at all). -/
theorem C3_counterexample :
    (connectToWiFi "home" (fun _ => AttemptOutcome.authFailed)).2.1 = 3 ∧
    (connectToWiFi "home" (fun _ => AttemptOutcome.authFailed)).2.2
      = [RadioEvent.powerOff, RadioEvent.powerOnSta,
         RadioEvent.disconnect, RadioEvent.beginAttempt,
         RadioEvent.disconnect, RadioEvent.backoff3s,
         RadioEvent.disconnect, RadioEvent.beginAttempt,
         RadioEvent.disconnect, RadioEvent.backoff3s,
         RadioEvent.disconnect, RadioEvent.beginAttempt] ∧
    ¬ ((connectToWiFi "home" (fun _ => AttemptOutcome.authFailed)).2.2.count
          RadioEvent.powerOff
        = (connectToWiFi "home" (fun _ => AttemptOutcome.authFailed)).2.1) := by
  decide

/-- C3 amended: with a non-empty SSID and every attempt failing
definitively (auth failure), the join routine makes exactly 3 attempts
and the radio trace is: one full radio reset (power off, pause, power
on in station role) before the loop, then for each attempt a
disconnect followed by an association, with the fixed 3 s backoff
(after a disconnect) exactly between consecutive attempts and not
after the last. -/
theorem C3_retry_trace (ssid : String) (hs : ssid.length ≠ 0)
    (env : ℕ → AttemptOutcome)
    (henv : ∀ i, env i = AttemptOutcome.authFailed) :
    connectToWiFi ssid env =
      (false, 3,
        [RadioEvent.powerOff, RadioEvent.powerOnSta,
         RadioEvent.disconnect, RadioEvent.beginAttempt,
         RadioEvent.disconnect, RadioEvent.backoff3s,
         RadioEvent.disconnect, RadioEvent.beginAttempt,
         RadioEvent.disconnect, RadioEvent.backoff3s,
         RadioEvent.disconnect, RadioEvent.beginAttempt]) := by
  have hmap : (List.range MAX_RETRIES).map env
      = [AttemptOutcome.authFailed, AttemptOutcome.authFailed,
         AttemptOutcome.authFailed] := by
    rw [show List.range MAX_RETRIES = [0, 1, 2] from rfl]
    simp [henv]
  rw [connectToWiFi, if_neg hs, hmap]
  rfl

theorem C3_retry_trace_witness :
    connectToWiFi "home" (fun _ => AttemptOutcome.authFailed) =
      (false, 3,
        [RadioEvent.powerOff, RadioEvent.powerOnSta,
         RadioEvent.disconnect, RadioEvent.beginAttempt,
         RadioEvent.disconnect, RadioEvent.backoff3s,
         RadioEvent.disconnect, RadioEvent.beginAttempt,
         RadioEvent.disconnect, RadioEvent.backoff3s,
         RadioEvent.disconnect, RadioEvent.beginAttempt]) :=
  C3_retry_trace "home" (by decide) (fun _ => AttemptOutcome.authFailed)
    (fun _ => rfl)
